import Mathlib

/-!
Verification development for the KrishiGPT conversation session engine
(`ai_engine.py`). The Python code is shallowly embedded: every function of
the engine that the properties below talk about is translated into an
executable Lean definition. Machine-level effects are made explicit:

* real time (`date.today()`) becomes an explicit `today : Date` argument;
* the Groq LLM client becomes an oracle `llm : List Turn → Nat → Option String`
  (messages and 0-based attempt index to either an answer or `none`, the
  latter modelling a raised exception);
* Redis becomes an explicit `Store` state plus a Boolean failure flag per
  backend operation (`true` models the Redis call raising);
* Python `None` returns become `Option.none`, and a raised exception of the
  model selector becomes the `none` result of `find_working_model`;
* JSON (de)serialisation of history lists is treated as the identity, and
  TTL expiry of Redis keys is not modelled (no property depends on it).

All definitions are total, which reflects the fact that the embedded code
paths catch the exceptions of their collaborators and never re-raise.
-/

namespace KrishiGPT

/-! ## String primitives

Python string operations used by the engine, modelled over `List Char`
(`String.toLower`, `in`, `strip`, `split` of the standard library do not
reduce well in the kernel, so the models are written from scratch).
Only ASCII letters change under lowercasing, which agrees with Python on
every character the engine's keyword tables contain (Devanagari has no
case). -/

/-- One character of Python `str.lower`. -/
def lowerChar (c : Char) : Char :=
  if 65 ≤ c.toNat ∧ c.toNat ≤ 90 then Char.ofNat (c.toNat + 32) else c

/-- Model of Python `str.lower`. -/
def strLower (s : String) : String := ⟨s.data.map lowerChar⟩

/-- `isPrefixList n h` is true when `n` is a prefix of `h`. -/
def isPrefixList : List Char → List Char → Bool
  | [], _ => true
  | _ :: _, [] => false
  | a :: as, b :: bs => a = b && isPrefixList as bs

/-- `isSubstr n h` is true when `n` occurs contiguously inside `h`
(model of Python `n in h` on strings). -/
def isSubstr : List Char → List Char → Bool
  | n, [] => isPrefixList n []
  | n, h :: t => isPrefixList n (h :: t) || isSubstr n t

/-- Model of Python `needle in hay` for strings. -/
def strContains (hay needle : String) : Bool := isSubstr needle.data hay.data

/-- Model of Python `str.strip()` (whitespace trim on both ends). -/
def trimChars (l : List Char) : List Char :=
  ((l.dropWhile Char.isWhitespace).reverse.dropWhile Char.isWhitespace).reverse

/-- Split a character list on a separator character; separators produce
field boundaries, so `n` separators yield `n + 1` fields. -/
def splitChar (sep : Char) : List Char → List (List Char)
  | [] => [[]]
  | a :: t =>
    match splitChar sep t with
    | [] => [[]]
    | x :: xs => if a = sep then [] :: x :: xs else (a :: x) :: xs

/-! ## Dates

Model of `datetime.date` (proleptic Gregorian calendar) and of
`datetime.strptime` restricted to the three formats the engine tries. -/

/-- Gregorian leap-year test. -/
def isLeap (y : Nat) : Bool := y % 4 = 0 && (y % 100 ≠ 0 || y % 400 = 0)

/-- Length of a month (`m` in `1..12`). -/
def daysInMonth (y m : Nat) : Nat :=
  if m = 2 then (if isLeap y then 29 else 28)
  else if m = 4 ∨ m = 6 ∨ m = 9 ∨ m = 11 then 30
  else 31

/-- Days in year `y` strictly before month `m`. -/
def daysBeforeMonth (y : Nat) : Nat → Nat
  | 0 => 0
  | 1 => 0
  | m + 1 => daysBeforeMonth y m + daysInMonth y m

/-- A calendar date; only constructed with `1 ≤ year ≤ 9999`,
`1 ≤ month ≤ 12`, `1 ≤ day ≤ daysInMonth year month`. -/
structure Date where
  year : Nat
  month : Nat
  day : Nat
deriving DecidableEq, Repr

/-- Model of Python `date.toordinal()`: day number with 0001-01-01 as 1. -/
def toOrdinal (d : Date) : Nat :=
  365 * (d.year - 1)
    + ((d.year - 1) / 4 + (d.year - 1) / 400 - (d.year - 1) / 100)
    + daysBeforeMonth d.year d.month + d.day

/-- Construct a date after the validity checks the `datetime` constructor
performs (year within `MINYEAR..MAXYEAR`, month and day in range). -/
def mkValidDate (y m d : Nat) : Option Date :=
  if 1 ≤ y ∧ y ≤ 9999 ∧ 1 ≤ m ∧ m ≤ 12 ∧ 1 ≤ d ∧ d ≤ daysInMonth y m then
    some ⟨y, m, d⟩
  else none

/-- A numeric `strptime` field: between `minW` and `maxW` digit characters. -/
def parseNumField (minW maxW : Nat) (cs : List Char) : Option Nat :=
  if minW ≤ cs.length ∧ cs.length ≤ maxW ∧ cs.all Char.isDigit then
    some (cs.foldl (fun a c => a * 10 + (c.toNat - 48)) 0)
  else none

/-- Model of `datetime.strptime(s, fmt).date()` for the formats
`%Y-%m-%d`, `%d-%m-%Y`, `%d/%m/%Y`: the whole string must decompose into
three numeric fields around the separator (`%Y` exactly four digits,
`%d`/`%m` one or two digits) forming a valid calendar date. -/
def parseWithFormat (sep : Char) (yearFirst : Bool) (cs : List Char) : Option Date :=
  match splitChar sep cs with
  | [a, b, c] =>
    let yf := if yearFirst then a else c
    let df := if yearFirst then c else a
    match parseNumField 4 4 yf, parseNumField 1 2 b, parseNumField 1 2 df with
    | some y, some m, some d => mkValidDate y m d
    | _, _, _ => none
  | _ => none

/-- Embedding of `parse_date_str` (ai_engine.py lines 46-56): strip the
input, then try `%Y-%m-%d`, `%d-%m-%Y`, `%d/%m/%Y` in order; `none` when
all three fail or the input is empty. -/
def parse_date_str (s : String) : Option Date :=
  if s = "" then none
  else
    let cs := trimChars s.data
    (parseWithFormat (Char.ofNat 45) true cs).orElse fun _ =>
      (parseWithFormat (Char.ofNat 45) false cs).orElse fun _ =>
        parseWithFormat (Char.ofNat 47) false cs

/-! ## Stage rules and the stage estimator -/

/-- Embedding of the module-level `STAGE_RULES` table (lines 15-43):
per crop an ordered list of `(min DAS, max DAS, stage label)` buckets. -/
def STAGE_RULES : List (String × List (Nat × Nat × String)) :=
  [ ("cotton",
      [ (0, 20, "अंकुरण / उगवण"),
        (21, 45, "वाढीची अवस्था"),
        (46, 80, "फुलोरा / चौकट"),
        (81, 130, "बॉल विकास"),
        (131, 999, "कापणी जवळ") ]),
    ("tomato",
      [ (0, 20, "रोपांची वाढ / रोपवाटिका"),
        (21, 40, "रोपांची वाढ / फुटवे"),
        (41, 70, "फुलोरा"),
        (71, 110, "फळ विकास"),
        (111, 999, "कापणी जवळ") ]),
    ("onion",
      [ (0, 25, "अंकुरण / रोप वाढ"),
        (26, 50, "वाढीची अवस्था"),
        (51, 80, "कंद विकास"),
        (81, 999, "कापणी जवळ") ]),
    ("soybean",
      [ (0, 15, "अंकुरण / उगवण"),
        (16, 35, "शाकीय वाढ"),
        (36, 65, "फुलोरा / फळधारणा"),
        (66, 999, "शेंगा भरणे / कापणी जवळ") ]) ]

/-- Model of `STAGE_RULES.get(crop_key)`. -/
def stageRulesFor (k : String) : Option (List (Nat × Nat × String)) :=
  (STAGE_RULES.find? (fun e => e.1 == k)).map (fun e => e.2)

/-- The generic label `_get_stage_info` starts from when no bucket matches. -/
def genericStageLabel : String := "अवस्था (अंदाजे)"

/-- The bucket scan of `_get_stage_info` (lines 266-269): first bucket
whose closed interval contains `das` wins; otherwise the generic label. -/
def findStageLabel (rules : List (Nat × Nat × String)) (das : Int) : String :=
  match rules.find? (fun r => decide ((r.1 : Int) ≤ das) && decide (das ≤ (r.2.1 : Int))) with
  | some r => r.2.2
  | none => genericStageLabel

/-- Result record of `_get_stage_info`. -/
structure StageInfo where
  crop : String
  das : Int
  label : String
deriving DecidableEq, Repr

/-- Embedding of `KrishiGPT._get_stage_info` (lines 243-272), with
`date.today()` passed explicitly as `today`. -/
def get_stage_info (today : Date) (crop_key sowing_date_str : String) : Option StageInfo :=
  if crop_key = "" || sowing_date_str = "" then none
  else
    match stageRulesFor (strLower crop_key) with
    | none => none
    | some rules =>
      if rules.isEmpty then none
      else
        match parse_date_str sowing_date_str with
        | none => none
        | some sow =>
          if (toOrdinal today : Int) - (toOrdinal sow : Int) < 0 then none
          else
            some ⟨strLower crop_key, (toOrdinal today : Int) - (toOrdinal sow : Int),
              findStageLabel rules ((toOrdinal today : Int) - (toOrdinal sow : Int))⟩

/-! ## Knowledge base

Model of the JSON structure loaded by `_load_crop_data`. Python dicts are
modelled as records of `Option String` fields (`none` = key absent) with
the `dict.get` defaults applied at the use sites, exactly as in the code;
the crop dict keeps its insertion order as an association list. -/

/-- One entry of a crop's `common_diseases` list. -/
structure Disease where
  name : Option String
  symptoms : Option String
  causes : Option String
  treatment : List String
  cost_per_acre : Option String
deriving DecidableEq, Repr

/-- One entry of a crop's `fertilizer_schedule` list. -/
structure FertStep where
  stage : Option String
  fertilizer : Option String
  cost : Option String
deriving DecidableEq, Repr

/-- One crop record of `crop_data["crops"]`. -/
structure CropInfo where
  name_hi : Option String
  season : Option String
  water_requirement : Option String
  keywords : List String
  common_diseases : List Disease
  fertilizer_schedule : List FertStep
deriving DecidableEq, Repr

/-- One entry of `crop_data["government_schemes"]`. -/
structure Scheme where
  name : Option String
  benefit : Option String
  eligibility : Option String
  apply : Option String
  helpline : Option String
deriving DecidableEq, Repr

/-- The structure returned by `_load_crop_data` (lines 170-175). -/
structure CropData where
  crops : List (String × CropInfo)
  government_schemes : List Scheme
  emergency_contacts : List (String × String)
deriving DecidableEq, Repr

/-- The empty knowledge base `_load_crop_data` returns when
`prompts/crop_data.json` does not exist (line 175). -/
def emptyCropData : CropData :=
  { crops := [], government_schemes := [], emergency_contacts := [] }

/-- Python truthiness of an optional string (`None` and `""` are falsy). -/
def truthy : Option String → Bool
  | none => false
  | some s => s ≠ ""

/-! ## Intent and crop detection -/

/-- Embedding of `KrishiGPT._detect_crop` (lines 178-184): first crop, in
dict order, one of whose keywords occurs in the lowercased query. -/
def detect_crop (kb : CropData) (query : String) : Option (String × CropInfo) :=
  let q := strLower query
  kb.crops.find? (fun e => e.2.keywords.any (fun kw => strContains q (strLower kw)))

/-- The `disease_keywords` list of `_detect_query_type` (lines 188-192). -/
def disease_keywords : List String :=
  [ "रोग", "बीमारी", "कीट", "सुंडी", "मक्खी", "इलाज", "उपचार", "पीला", "पीले", "सूख",
    "मुरझा", "धब्बे", "छेद", "सड़", "disease", "pest", "treatment", "yellow", "dry", "rot",
    "अळी", "माशी", "किडा" ]

/-- The `fertilizer_keywords` list (line 193; the second entry is the
source's literal mixed-script token). -/
def fertilizer_keywords : List String :=
  [ "खाद", "উర్వরक", "fertilizer", "यूरिया", "dap", "npk", "पोषक", "nutrient", "खत",
    "मात्रा", "कितना" ]

/-- The `scheme_keywords` list (line 194). -/
def scheme_keywords : List String :=
  [ "योजना", "scheme", "सरकारी", "government", "सब्सिडी", "pm-kisan", "बीमा", "kcc",
    "क्रेडिट", "loan" ]

/-- The `irrigation_keywords` list (line 195). -/
def irrigation_keywords : List String :=
  [ "सिंचाई", "पानी", "water", "irrigation", "ड्रिप", "drip", "स्प्रिंकलर" ]

/-- `matchesGroup ks q`: some keyword of `ks` occurs in the lowercased
query (the `any(kw in q for kw in ...)` tests of `_detect_query_type`). -/
def matchesGroup (ks : List String) (query : String) : Bool :=
  ks.any (fun kw => strContains (strLower query) kw)

/-- Embedding of `KrishiGPT._detect_query_type` (lines 186-201). -/
def detect_query_type (query : String) : String :=
  if matchesGroup disease_keywords query then "disease"
  else if matchesGroup fertilizer_keywords query then "fertilizer"
  else if matchesGroup scheme_keywords query then "scheme"
  else if matchesGroup irrigation_keywords query then "irrigation"
  else "general"

/-! ## Context builder -/

/-- The lines `_get_relevant_context` emits for one disease record
(lines 215-222). -/
def disease_part (d : Disease) : List String :=
  [ "\n   " ++ (d.name.getD "") ++ ":",
    "   लक्षण: " ++ (d.symptoms.getD "N/A"),
    "   कारण: " ++ (d.causes.getD "N/A"),
    "   उपचार:" ]
  ++ d.treatment.map (fun t => "      • " ++ t)
  ++ (match d.cost_per_acre with
      | some c => ["   खर्च: ₹" ++ c ++ "/एकड़"]
      | none => [])

/-- The lines emitted for one fertilizer-schedule step (lines 225-228). -/
def fert_part (s : FertStep) : List String :=
  [ "   • " ++ (s.stage.getD "") ++ ": " ++ (s.fertilizer.getD "") ]
  ++ (if truthy s.cost then ["     खर्च: ₹" ++ (s.cost.getD "")] else [])

/-- The lines emitted for one government scheme (lines 233-238). -/
def scheme_part (s : Scheme) : List String :=
  [ "\n   " ++ (s.name.getD "") ++ ":",
    "   लाभ: " ++ (s.benefit.getD "N/A"),
    "   पात्रता: " ++ (s.eligibility.getD "N/A"),
    "   आवेदन: " ++ (s.apply.getD "N/A") ]
  ++ (if truthy s.helpline then ["   हेल्पलाइन: " ++ (s.helpline.getD "")] else [])

/-- The crop-specific lines of `_get_relevant_context` (lines 208-228):
season and water facts, then the disease detail block for disease-type
queries (first three diseases only), then the fertilizer schedule for
fertilizer- or general-type queries. -/
def crop_section (crop_key : String) (ci : CropInfo) (qtype : String) : List String :=
  [ "\n📌 फसल (" ++ (ci.name_hi.getD crop_key) ++ "):",
    "   - मौसम: " ++ (ci.season.getD "N/A"),
    "   - पानी: " ++ (ci.water_requirement.getD "N/A") ]
  ++ (if qtype = "disease" then
        "\n🔬 आम बीमारियां:" :: (ci.common_diseases.take 3).flatMap disease_part
      else [])
  ++ (if qtype = "fertilizer" ∨ qtype = "general" then
        "\n🌿 खाद अनुसूची:" :: ci.fertilizer_schedule.flatMap fert_part
      else [])

/-- The scheme-section header string (line 231). -/
def schemeHeader : String := "\n📋 सरकारी योजनाएं:"

/-- Embedding of `KrishiGPT._get_relevant_context` (lines 203-240): crop
facts when a crop is detected, the scheme list when the query type is
`scheme`, joined with newlines; the empty string when nothing applies.
Note the scheme-section header is appended before the scheme loop runs,
so a scheme-type query contributes the header even when the scheme list
is empty. -/
def get_relevant_context (kb : CropData) (query : String) : String :=
  let qtype := detect_query_type query
  let cropPart : List String :=
    match detect_crop kb query with
    | some (ck, ci) => crop_section ck ci qtype
    | none => []
  let schemePart : List String :=
    if qtype = "scheme" then schemeHeader :: kb.government_schemes.flatMap scheme_part
    else []
  let parts := cropPart ++ schemePart
  if parts.isEmpty then "" else String.intercalate "\n" parts

/-! ## Conversation history store

`self.redis` / `self.conversations` of the engine, as explicit state. A
Redis call either succeeds or raises; each store operation therefore takes
a Boolean `fail` flag meaning "the Redis call of this operation raises".
The flag is only consulted while `redisOk` is true, because once the code
has set `self.redis = None` no Redis call is ever issued again. -/

/-- One conversation message (`{"role": ..., "content": ...}`). -/
structure Turn where
  role : String
  content : String
deriving DecidableEq, Repr

/-- Python `l[-n:]`: the last `n` elements (all of them when shorter). -/
def lastN (n : Nat) (l : List α) : List α := l.drop (l.length - n)

/-- The mutable store state of a `KrishiGPT` instance: whether
`self.redis` is still set, the durable key-value content, and the
in-process `self.conversations` map (total with default `[]`, matching
`dict.get(user_id, [])`). -/
structure Store where
  redisOk : Bool
  redisData : String → Option (List Turn)
  mem : String → List Turn

/-- Model of `_conv_key` (line 275-276). -/
def conv_key (user_id : String) : String := "conv:" ++ user_id

/-- Pointwise update of the in-memory map. -/
def memSet (m : String → List Turn) (k : String) (v : List Turn) : String → List Turn :=
  fun x => if x = k then v else m x

/-- Pointwise update of the durable map. -/
def redisSet (m : String → Option (List Turn)) (k : String) (v : Option (List Turn)) :
    String → Option (List Turn) :=
  fun x => if x = k then v else m x

/-- Embedding of `KrishiGPT._get_history` (lines 278-287): read Redis
while it is set; on a raised Redis call, drop to memory for good and
serve this read from memory; otherwise serve from memory. Returns the
history together with the possibly-degraded store. -/
def get_history (st : Store) (fail : Bool) (user_id : String) : List Turn × Store :=
  if st.redisOk then
    if fail then (st.mem user_id, { st with redisOk := false })
    else
      match st.redisData (conv_key user_id) with
      | some msgs => (msgs, st)
      | none => ([], st)
  else (st.mem user_id, st)

/-- Embedding of `KrishiGPT._set_history` (lines 289-299): truncate to the
last 20 turns first, then write to Redis while it is set; on a raised
Redis call, drop to memory for good and write there; otherwise write to
memory. -/
def set_history (st : Store) (fail : Bool) (user_id : String) (msgs : List Turn) : Store :=
  let msgs := lastN 20 msgs
  if st.redisOk then
    if fail then { st with redisOk := false, mem := memSet st.mem user_id msgs }
    else { st with redisData := redisSet st.redisData (conv_key user_id) (some msgs) }
  else { st with mem := memSet st.mem user_id msgs }

/-- Embedding of the effective `KrishiGPT._clear_history` (lines 371-380;
the earlier definition at line 300 is shadowed by this one): delete the
Redis key while Redis is set, degrading to memory on a raised call;
`dict.pop` on the memory map otherwise (modelled as resetting to `[]`,
the read default). -/
def clear_history (st : Store) (fail : Bool) (user_id : String) : Store :=
  if st.redisOk then
    if fail then { st with redisOk := false, mem := memSet st.mem user_id [] }
    else { st with redisData := redisSet st.redisData (conv_key user_id) none }
  else { st with mem := memSet st.mem user_id [] }

/-- The append pattern `get_response` uses on success: fetch the current
history, extend it, and persist through `_set_history` (which truncates). -/
def append_turns (st : Store) (fail : Bool) (user_id : String) (new : List Turn) : Store :=
  let hs := get_history st fail user_id
  set_history hs.2 fail user_id (hs.1 ++ new)

/-- One store operation together with the fate of its Redis call, for
stating lifetime properties over arbitrary call sequences. -/
inductive StoreOp
  | get (fail : Bool) (user_id : String)
  | set (fail : Bool) (user_id : String) (msgs : List Turn)
  | clear (fail : Bool) (user_id : String)

/-- Apply one operation to the store, keeping only the state. -/
def apply_op (st : Store) : StoreOp → Store
  | .get fail u => (get_history st fail u).2
  | .set fail u msgs => set_history st fail u msgs
  | .clear fail u => clear_history st fail u

/-- Run a sequence of store operations. -/
def run_ops (st : Store) (ops : List StoreOp) : Store := ops.foldl apply_op st

/-! ## Model selector -/

/-- The hard-coded fallback list `models_to_try` (lines 142-146). -/
def models_to_try : List String :=
  [ "llama3-70b-8192", "llama3-8b-8192", "mixtral-8x7b-32768" ]

/-- The environment `_find_working_model` runs in: the `LLM_MODEL`
environment variable (`none` = unset), whether `working_model.txt`
exists and its content, and the probe outcome per model id (`probe m =
true` models the tiny `chat.completions.create` call succeeding). -/
structure ModelEnv where
  llm_model_env : Option String
  cache_exists : Bool
  cache_content : String
  probe : String → Bool

/-- The stripped override `(os.getenv("LLM_MODEL") or "").strip()`
(line 118). -/
def override_model (e : ModelEnv) : String :=
  String.mk (trimChars ((e.llm_model_env.getD "").data))

/-- The stripped cache-file content `f.read().strip()` (line 132). -/
def cached_model (e : ModelEnv) : String :=
  String.mk (trimChars e.cache_content.data)

/-- Embedding of `KrishiGPT._find_working_model` (lines 116-157). The
result is `none` for the final `raise RuntimeError` ("no working model"),
or `some (model, written)` where `written` is the content written to
`working_model.txt` (`none` when nothing is written). -/
def find_working_model (e : ModelEnv) : Option (String × Option String) :=
  if override_model e ≠ "" && e.probe (override_model e) then
    some (override_model e, none)
  else if e.cache_exists && cached_model e ≠ "" && e.probe (cached_model e) then
    some (cached_model e, none)
  else
    match models_to_try.find? e.probe with
    | some m => some (m, some m)
    | none => none

/-! ## Request executor (`get_response`) -/

/-- The fixed apology string returned on exhausted retries
(lines 368-369). -/
def apology_message : String :=
  "❌ माफ करें, तकनीकी समस्या है। कृपया थोड़ी देर बाद प्रयास करें। 🙏\n"
    ++ "अगर समस्या बनी रहे तो किसान कॉल सेंटर पर कॉल करें: 1551"

/-- The caller-supplied `meta` dict of `get_response`. -/
structure Meta where
  crop_key : Option String
  crop : Option String
  sowing_date : Option String
deriving DecidableEq, Repr

/-- Python `a or b` on optional strings (first truthy value). -/
def pyOr (a b : Option String) : Option String := if truthy a then a else b

/-- The immutable per-instance configuration `get_response` reads. -/
structure Env where
  system_prompt : String
  crop_data : CropData

/-- The stage-lookup part of `get_response` (lines 312-321): stage info
from the meta crop (with `crop_key` falling back to `crop`), and when
that fails but a sowing date is present, from the crop detected in the
query text. -/
def stage_info_of_meta (kb : CropData) (today : Date) (meta : Option Meta)
    (query : String) : Option StageInfo :=
  match meta with
  | none => none
  | some m =>
    let ck := pyOr m.crop_key m.crop
    let sd := m.sowing_date
    match get_stage_info today (ck.getD "") (sd.getD "") with
    | some si => some si
    | none =>
      if truthy sd then
        match detect_crop kb query with
        | some (dk, _) => get_stage_info today dk (sd.getD "")
        | none => none
      else none

/-- The stage note prepended to the system prompt (lines 322-327);
empty when no stage info is available. -/
def stage_text (kb : CropData) (today : Date) (meta : Option Meta)
    (query : String) : String :=
  match stage_info_of_meta kb today meta query with
  | some si =>
      "\n\n--- 🌱 फसल की अवस्था ---\n"
        ++ "सध्या अंदाजे " ++ toString si.das ++ " दिवस झाले आहेत (DAS). "
        ++ "अवस्था: " ++ si.label ++ "."
  | none => ""

/-- The knowledge-base context block appended to the system prompt when
the context is non-empty (line 336). -/
def contextBlock (crop_context : String) : String :=
  "\n\n--- 📚 संबंधित जानकारी (Knowledge Base से) ---\n" ++ crop_context

/-- The fixed instruction suffix appended after the context block
(line 337). -/
def instructionSuffix : String :=
  "\n\n--- ⚠️ निर्देश ---\nऊपर दी गई जानकारी का उपयोग करके सुरक्षित, व्यावहारिक जवाब दो।"

/-- The `enhanced_prompt` assembly of `get_response` (lines 330-337). -/
def enhanced_prompt (env : Env) (today : Date) (meta : Option Meta)
    (query : String) : String :=
  let stext := stage_text env.crop_data today meta query
  let crop_context := get_relevant_context env.crop_data query
  let p := env.system_prompt
  let p := if stext ≠ "" then p ++ stext else p
  if crop_context ≠ "" then p ++ contextBlock crop_context ++ instructionSuffix else p

/-- The message list sent to the LLM (lines 339-341): system prompt, last
20 history turns, then the new user query. -/
def response_messages (env : Env) (today : Date) (history : List Turn)
    (meta : Option Meta) (query : String) : List Turn :=
  ⟨"system", enhanced_prompt env today meta query⟩
    :: (lastN 20 history ++ [⟨"user", query⟩])

/-- Outcome of the retry loop of `get_response`. -/
inductive LoopOutcome
  | success (attempt : Nat) (answer : String)
  | exhausted
  | fellThrough
deriving DecidableEq, Repr

/-- The retry loop `for attempt in range(max_retries)` (lines 343-369),
with `fuel` the number of remaining iterations and `i` the current
attempt index: a successful call returns immediately; a failed call on
the last iteration returns the apology (`exhausted`); a failed call
earlier sleeps and retries; an empty range falls through (`fellThrough`,
Python returning `None`). -/
def llm_loop (f : Nat → Option String) : Nat → Nat → LoopOutcome
  | 0, _ => .fellThrough
  | 1, i =>
    match f i with
    | some a => .success i a
    | none => .exhausted
  | fuel + 2, i =>
    match f i with
    | some a => .success i a
    | none => llm_loop f (fuel + 1) (i + 1)

/-- Embedding of `KrishiGPT.get_response` (lines 307-369). Explicit
inputs beyond the Python arguments: `today` for `date.today()`, the store
state `st`, per-operation Redis failure flags `getFail`/`setFail`, and
the LLM oracle `llm messages attempt` (`none` = the call raises). The
result is the returned value (`none` models Python `None`) together with
the new store state. -/
def get_response (env : Env) (today : Date) (st : Store) (getFail setFail : Bool)
    (llm : List Turn → Nat → Option String) (user_id query : String)
    (max_retries : Nat) (meta : Option Meta) : Option String × Store :=
  let hs := get_history st getFail user_id
  let history := hs.1
  let st1 := hs.2
  let messages := response_messages env today history meta query
  match llm_loop (llm messages) max_retries 0 with
  | .success _ ans =>
      (some ans,
        set_history st1 setFail user_id
          (history ++ [⟨"user", query⟩, ⟨"assistant", ans⟩]))
  | .exhausted => (some apology_message, st1)
  | .fellThrough => (none, st1)

/-- Repeated sequential appends for one user through the engine's
get-extend-persist pattern, with the durable backend healthy. -/
def append_many (u : String) (calls : List (List Turn)) (st : Store) : Store :=
  calls.foldl (fun s c => append_turns s false u c) st

/-! ## Helper lemmas -/

theorem lastN_of_le {l : List α} (h : l.length ≤ n) : lastN n l = l := by
  simp [lastN, Nat.sub_eq_zero_of_le h]

theorem lastN_cons_of_le {l : List α} (a : α) (h : n ≤ l.length) :
    lastN n (a :: l) = lastN n l := by
  unfold lastN
  have he : (a :: l).length - n = (l.length - n) + 1 := by
    simp only [List.length_cons]; omega
  rw [he, List.drop_succ_cons]

theorem lastN_length_le (n : Nat) (l : List α) : (lastN n l).length ≤ n := by
  simp [lastN]; omega

theorem lastN_length_of_le {l : List α} (h : n ≤ l.length) :
    (lastN n l).length = n := by
  simp [lastN]; omega

theorem lastN_append_lastN (n : Nat) (x y : List α) :
    lastN n (lastN n x ++ y) = lastN n (x ++ y) := by
  induction x with
  | nil => simp [lastN]
  | cons a x ih =>
    by_cases h : n ≤ x.length
    · have h1 : lastN n (a :: x) = lastN n x := lastN_cons_of_le a h
      have h2 : lastN n (a :: (x ++ y)) = lastN n (x ++ y) :=
        lastN_cons_of_le a (by simp only [List.length_append]; omega)
      rw [List.cons_append, h1, h2, ih]
    · rw [lastN_of_le (l := a :: x) (by simp only [List.length_cons]; omega)]

theorem lastN_append_of_le {y : List α} (x : List α) (h : n ≤ y.length) :
    lastN n (x ++ y) = lastN n y := by
  induction x with
  | nil => rfl
  | cons a x ih =>
    rw [List.cons_append, lastN_cons_of_le a (by simp only [List.length_append]; omega), ih]

/-- `_get_history` only ever changes the `redisOk` flag of the state: the
durable and in-memory contents survive a read untouched. -/
theorem get_history_state (st : Store) (fail : Bool) (u : String) :
    (get_history st fail u).2 = { st with redisOk := st.redisOk && !fail } := by
  obtain ⟨r, d, m⟩ := st
  cases r <;> cases fail <;> simp [get_history]
  cases d (conv_key u) <;> simp

/-- The history visible through `_get_history` when no Redis call fails. -/
def histOf (st : Store) (u : String) : List Turn := (get_history st false u).1

/-- `set_history` keeps the backend flag intact on a healthy run. -/
theorem set_history_redisOk (st : Store) (u : String) (msgs : List Turn) :
    (set_history st false u msgs).redisOk = st.redisOk := by
  unfold set_history
  cases hr : st.redisOk <;> simp [hr]

/-- Healthy-run roundtrip: after `_set_history`, `_get_history` returns
the truncated value, on whichever backend is active. -/
theorem get_set_history (st : Store) (u : String) (msgs : List Turn) :
    histOf (set_history st false u msgs) u = lastN 20 msgs := by
  unfold histOf get_history set_history
  cases hr : st.redisOk <;> simp [hr, memSet, redisSet]

/-- One healthy append step: the visible history becomes the truncated
extension of the previous visible history. -/
theorem histOf_append_turns (st : Store) (u : String) (c : List Turn) :
    histOf (append_turns st false u c) u = lastN 20 (histOf st u ++ c) := by
  have hst : (get_history st false u).2 = st := by
    rw [get_history_state]; cases st; simp
  simp only [append_turns]
  rw [hst, get_set_history]
  rfl

/-- Folding healthy appends: the visible history after at least one
append is the truncation of everything ever appended after the starting
history. -/
theorem histOf_append_many (u : String) (calls : List (List Turn)) (c : List Turn)
    (st : Store) :
    histOf (append_many u (c :: calls) st) u
      = lastN 20 (histOf st u ++ (c :: calls).flatten) := by
  induction calls generalizing c st with
  | nil => simp [append_many, histOf_append_turns]
  | cons c2 rest ih =>
    have hstep : append_many u (c :: c2 :: rest) st
        = append_many u (c2 :: rest) (append_turns st false u c) := rfl
    rw [hstep, ih, histOf_append_turns, lastN_append_lastN, List.append_assoc]
    simp

/-- Flattening lists of two-turn exchanges doubles the length. -/
theorem flatten_length_of_pairs (calls : List (List Turn))
    (h : ∀ c ∈ calls, c.length = 2) : calls.flatten.length = 2 * calls.length := by
  induction calls with
  | nil => rfl
  | cons c rest ih =>
    have hc : c.length = 2 := h c (List.mem_cons_self c rest)
    have hr : ∀ x ∈ rest, x.length = 2 := fun x hx => h x (List.mem_cons_of_mem c hx)
    simp [List.flatten, hc, ih hr, List.length_cons]
    omega

/-- The retry loop returns `exhausted` when every attempt in range
fails and there is at least one attempt. -/
theorem llm_loop_all_fail (f : Nat → Option String) :
    ∀ fuel i, 1 ≤ fuel → (∀ j, i ≤ j → j < i + fuel → f j = none) →
      llm_loop f fuel i = .exhausted := by
  intro fuel
  induction fuel with
  | zero => intro i h; omega
  | succ k ih =>
    intro i _ h2
    have hfi : f i = none := h2 i (Nat.le_refl i) (by omega)
    cases k with
    | zero => simp [llm_loop, hfi]
    | succ k2 =>
      simp only [llm_loop, hfi]
      exact ih (i + 1) (by omega) (fun j hj1 hj2 => h2 j (by omega) (by omega))

/-- The retry loop never falls through when there is at least one
attempt. -/
theorem llm_loop_ne_fellThrough (f : Nat → Option String) :
    ∀ fuel i, 1 ≤ fuel → llm_loop f fuel i ≠ .fellThrough := by
  intro fuel
  induction fuel with
  | zero => intro i h; omega
  | succ k ih =>
    intro i _
    cases hfi : f i with
    | some a => cases k <;> simp [llm_loop, hfi]
    | none =>
      cases k with
      | zero => simp [llm_loop, hfi]
      | succ k2 =>
        simp only [llm_loop, hfi]
        exact ih (i + 1) (by omega)

/-- Once degraded, the store stays degraded across any sequence of
operations (`self.redis` is never re-assigned after `__init__`). -/
theorem run_ops_degraded (ops : List StoreOp) :
    ∀ st : Store, st.redisOk = false → (run_ops st ops).redisOk = false := by
  induction ops with
  | nil => intro st h; exact h
  | cons op rest ih =>
    intro st h
    have hstep : (apply_op st op).redisOk = false := by
      cases op with
      | get f u2 =>
        show (get_history st f u2).2.redisOk = false
        rw [get_history_state]; simp [h]
      | set f u2 m2 => simp [apply_op, set_history, h]
      | clear f u2 => simp [apply_op, clear_history, h]
    exact ih (apply_op st op) hstep

/-- Every crop in `STAGE_RULES` has a non-empty rule table. -/
theorem stageRulesFor_not_empty {k : String} {rs : List (Nat × Nat × String)}
    (h : stageRulesFor k = some rs) : rs.isEmpty = false := by
  unfold stageRulesFor at h
  cases hf : STAGE_RULES.find? (fun e => e.1 == k) with
  | none => rw [hf] at h; simp at h
  | some x =>
    rw [hf] at h
    have hx : x.2 = rs := by simpa using h
    rw [← hx]
    have hmem := List.mem_of_find?_eq_some hf
    fin_cases hmem <;> rfl

theorem findStageLabel_nil (das : Int) : findStageLabel [] das = genericStageLabel := rfl

theorem findStageLabel_cons_pos (b : Nat × Nat × String)
    (rest : List (Nat × Nat × String)) (das : Int)
    (h1 : (b.1 : Int) ≤ das) (h2 : das ≤ (b.2.1 : Int)) :
    findStageLabel (b :: rest) das = b.2.2 := by
  have hp : (decide ((b.1 : Int) ≤ das) && decide (das ≤ (b.2.1 : Int))) = true := by
    simp [h1, h2]
  unfold findStageLabel
  rw [List.find?_cons_of_pos
    (p := fun r => decide ((r.1 : Int) ≤ das) && decide (das ≤ (r.2.1 : Int))) rest hp]

theorem findStageLabel_cons_neg (b : Nat × Nat × String)
    (rest : List (Nat × Nat × String)) (das : Int)
    (h : ¬((b.1 : Int) ≤ das ∧ das ≤ (b.2.1 : Int))) :
    findStageLabel (b :: rest) das = findStageLabel rest das := by
  have hp : ¬((decide ((b.1 : Int) ≤ das) && decide (das ≤ (b.2.1 : Int))) = true) := by
    simp only [Bool.and_eq_true, decide_eq_true_eq]
    exact h
  unfold findStageLabel
  rw [List.find?_cons_of_neg
    (p := fun r => decide ((r.1 : Int) ≤ das) && decide (das ≤ (r.2.1 : Int))) rest hp]

/-- `_detect_query_type` group membership, stated as the claim states it:
some keyword of the group occurs in the lowercased query. -/
def groupMatches (ks : List String) (query : String) : Prop :=
  ∃ kw ∈ ks, strContains (strLower query) kw = true

instance (ks : List String) (query : String) : Decidable (groupMatches ks query) := by
  unfold groupMatches
  infer_instance

theorem matchesGroup_iff (ks : List String) (query : String) :
    matchesGroup ks query = true ↔ groupMatches ks query := by
  simp [matchesGroup, groupMatches, List.any_eq_true]

/-! ## Witness fixtures -/

/-- A minimal engine configuration used by witness instantiations. -/
def wEnv : Env := { system_prompt := "SP", crop_data := emptyCropData }

/-- A fresh store with a healthy durable backend. -/
def wStore : Store := { redisOk := true, redisData := fun _ => none, mem := fun _ => [] }

/-- A store already degraded to memory. -/
def wStoreDegraded : Store :=
  { redisOk := false, redisData := fun _ => none, mem := fun _ => [] }

/-- A fixed reference day. -/
def wToday : Date := ⟨2026, 10, 12⟩

/-- An LLM oracle whose every call raises. -/
def wLLMFail : List Turn → Nat → Option String := fun _ _ => none

/-- A 21-call sequence of two-turn exchanges. -/
def wCalls : List (List Turn) :=
  List.replicate 21 [⟨"user", "q"⟩, ⟨"assistant", "a"⟩]

/-! ## Claims -/

/-- C1: for every user id, query and meta, if the LLM completion call
fails on every one of the `max_retries` attempts (at least one), then
`get_response` returns exactly the fixed localized apology string (the
one carrying the emergency number 1551) rather than raising — totality
of the embedding reflects that the exceptions are caught — and the
stored conversation history is left unchanged: both backend maps of the
resulting store are untouched for every user, so no turn is appended. -/
theorem C1_exhausted_retries_apology (env : Env) (today : Date) (st : Store)
    (getFail setFail : Bool) (llm : List Turn → Nat → Option String)
    (user_id query : String) (max_retries : Nat) (meta : Option Meta)
    (hr : 1 ≤ max_retries)
    (hfail : ∀ j, j < max_retries →
      llm (response_messages env today (get_history st getFail user_id).1 meta query) j
        = none) :
    get_response env today st getFail setFail llm user_id query max_retries meta
        = (some apology_message, (get_history st getFail user_id).2) ∧
    (get_history st getFail user_id).2.redisData = st.redisData ∧
    (get_history st getFail user_id).2.mem = st.mem := by
  have hloop :
      llm_loop
        (llm (response_messages env today (get_history st getFail user_id).1 meta query))
        max_retries 0 = .exhausted :=
    llm_loop_all_fail _ max_retries 0 hr (fun j _ hj2 => hfail j (by omega))
  refine ⟨?_, ?_, ?_⟩
  · simp only [get_response]
    rw [hloop]
  · rw [get_history_state]
  · rw [get_history_state]

/-- C1 witness: a concrete run with three failing attempts returns the
apology and leaves both history maps unchanged. -/
theorem C1_witness :
    get_response wEnv wToday wStore false false wLLMFail "u" "hi" 3 none
        = (some apology_message, (get_history wStore false "u").2) ∧
    (get_history wStore false "u").2.redisData = wStore.redisData ∧
    (get_history wStore false "u").2.mem = wStore.mem :=
  C1_exhausted_retries_apology wEnv wToday wStore false false wLLMFail "u" "hi" 3 none
    (by decide) (fun j _ => rfl)

/-- C10: with `max_retries = 0` the attempt loop body never runs and
`get_response` returns Python `None` (modelled `none`) — neither an
answer nor the apology — while for every `max_retries ≥ 1` the returned
value is always a string (`some`). -/
theorem C10_zero_retries_none (env : Env) (today : Date) (st : Store)
    (getFail setFail : Bool) (llm : List Turn → Nat → Option String)
    (user_id query : String) (meta : Option Meta) :
    (get_response env today st getFail setFail llm user_id query 0 meta).1 = none ∧
    ∀ max_retries, 1 ≤ max_retries →
      ∃ s, (get_response env today st getFail setFail llm user_id query max_retries
        meta).1 = some s := by
  constructor
  · rfl
  · intro n hn
    cases hout :
        llm_loop
          (llm (response_messages env today (get_history st getFail user_id).1 meta query))
          n 0 with
    | success i a =>
      refine ⟨a, ?_⟩
      simp only [get_response]
      rw [hout]
    | exhausted =>
      refine ⟨apology_message, ?_⟩
      simp only [get_response]
      rw [hout]
    | fellThrough => exact absurd hout (llm_loop_ne_fellThrough _ n 0 hn)

/-- C10 witness: zero retries return `none`, three retries return a
string, on a concrete instance. -/
theorem C10_witness :
    (get_response wEnv wToday wStore false false wLLMFail "u" "hi" 0 none).1 = none ∧
    ∃ s, (get_response wEnv wToday wStore false false wLLMFail "u" "hi" 3 none).1
      = some s :=
  ⟨(C10_zero_retries_none wEnv wToday wStore false false wLLMFail "u" "hi" none).1,
   (C10_zero_retries_none wEnv wToday wStore false false wLLMFail "u" "hi" none).2 3
     (by decide)⟩

/-- C3: `_set_history` truncates to the last 20 turns before persisting
on whichever backend is active (healthy Redis, Redis failing over to
memory, or memory), the persisted value never exceeds 20 turns, and
after `N ≥ 21` sequential get-extend-persist appends of 2 turns each for
one user, `_get_history` returns exactly the most recent 20 appended
turns in their original (oldest-first) order. -/
theorem C3_history_cap (st : Store) (fail : Bool) (u : String) (msgs : List Turn)
    (calls : List (List Turn)) (hN : 21 ≤ calls.length)
    (h2 : ∀ c ∈ calls, c.length = 2) :
    (st.redisOk = true → fail = false →
      (set_history st fail u msgs).redisData (conv_key u) = some (lastN 20 msgs)) ∧
    (st.redisOk = true → fail = true →
      (set_history st fail u msgs).mem u = lastN 20 msgs) ∧
    (st.redisOk = false → (set_history st fail u msgs).mem u = lastN 20 msgs) ∧
    (lastN 20 msgs).length ≤ 20 ∧
    histOf (append_many u calls st) u = lastN 20 calls.flatten ∧
    (histOf (append_many u calls st) u).length = 20 := by
  obtain ⟨c, rest, rfl⟩ : ∃ c rest, calls = c :: rest := by
    cases calls with
    | nil => simp at hN
    | cons c rest => exact ⟨c, rest, rfl⟩
  have hflat : ((c :: rest).flatten).length = 2 * (c :: rest).length :=
    flatten_length_of_pairs _ h2
  have hge : 20 ≤ ((c :: rest).flatten).length := by
    rw [hflat]
    simp only [List.length_cons] at hN ⊢
    omega
  refine ⟨?_, ?_, ?_, lastN_length_le 20 msgs, ?_, ?_⟩
  · intro h1 hf
    subst hf
    simp [set_history, h1, redisSet]
  · intro h1 hf
    subst hf
    simp [set_history, h1, memSet]
  · intro h1
    simp [set_history, h1, memSet]
  · rw [histOf_append_many, lastN_append_of_le _ hge]
  · rw [histOf_append_many, lastN_append_of_le _ hge, lastN_length_of_le hge]

/-- C3 witness: 21 two-turn appends on a fresh healthy store leave
exactly the most recent 20 turns visible. -/
theorem C3_witness :
    histOf (append_many "u" wCalls wStore) "u" = lastN 20 wCalls.flatten ∧
    (histOf (append_many "u" wCalls wStore) "u").length = 20 :=
  ⟨(C3_history_cap wStore false "u" [] wCalls (by decide) (by decide)).2.2.2.2.1,
   (C3_history_cap wStore false "u" [] wCalls (by decide) (by decide)).2.2.2.2.2⟩

/-- C4: a raised Redis call on any store operation (read, write, delete)
leaves the store degraded (`redisOk = false`); degradation is one-way
across every subsequent operation sequence; and in the degraded state
every `_get_history`/`_set_history` call for any user is served purely
by the in-memory map — the Redis failure flag is irrelevant, the durable
data is never touched again, and the calls return normally (totality of
the embedding models exception-freedom). -/
theorem C4_one_way_degradation (st : Store) (u : String) (fail : Bool)
    (msgs : List Turn) (ops : List StoreOp) :
    (get_history st true u).2.redisOk = false ∧
    (set_history st true u msgs).redisOk = false ∧
    (clear_history st true u).redisOk = false ∧
    (st.redisOk = false → (run_ops st ops).redisOk = false) ∧
    (st.redisOk = false → get_history st fail u = (st.mem u, st)) ∧
    (st.redisOk = false →
      set_history st fail u msgs = { st with mem := memSet st.mem u (lastN 20 msgs) }) ∧
    (st.redisOk = false → (set_history st fail u msgs).redisData = st.redisData) := by
  refine ⟨?_, ?_, ?_, fun h => run_ops_degraded ops st h, fun h => ?_, fun h => ?_,
    fun h => ?_⟩
  · rw [get_history_state]; simp
  · cases h : st.redisOk <;> simp [set_history, h]
  · cases h : st.redisOk <;> simp [clear_history, h]
  · simp [get_history, h]
  · simp [set_history, h]
  · simp [set_history, h]

/-- C4 witness: on a concrete degraded store, a write with a failing
flag stays degraded, a mixed operation run stays degraded, and a read is
served from memory. -/
theorem C4_witness :
    (set_history wStoreDegraded true "u" [⟨"user", "x"⟩]).redisOk = false ∧
    (run_ops wStoreDegraded [StoreOp.get true "u", StoreOp.set true "u" []]).redisOk
      = false ∧
    get_history wStoreDegraded false "u" = (wStoreDegraded.mem "u", wStoreDegraded) :=
  ⟨(C4_one_way_degradation wStoreDegraded "u" true [⟨"user", "x"⟩] []).2.1,
   (C4_one_way_degradation wStoreDegraded "u" true []
      [StoreOp.get true "u", StoreOp.set true "u" []]).2.2.2.1 rfl,
   (C4_one_way_degradation wStoreDegraded "u" false [] []).2.2.2.2.1 rfl⟩

/-- C2: `_find_working_model` probes in the order override, cached,
fallback list. A present (non-empty) override that probes successfully is
returned without any cache write; when the override is absent or fails
(a failed override falls through rather than aborting), a present cached
identifier that probes successfully is returned without any cache write;
when that too is absent or fails, the first fallback-list entry whose
probe succeeds is returned and is exactly what gets persisted to the
cache (so a cache write happens if and only if the winner came from the
fallback list); and when every probe fails the selector fails
(`none` models the raised no-working-model error). -/
theorem C2_model_selection_order (e : ModelEnv) :
    (override_model e ≠ "" → e.probe (override_model e) = true →
      find_working_model e = some (override_model e, none)) ∧
    ((override_model e = "" ∨ e.probe (override_model e) = false) →
      e.cache_exists = true → cached_model e ≠ "" → e.probe (cached_model e) = true →
      find_working_model e = some (cached_model e, none)) ∧
    ((override_model e = "" ∨ e.probe (override_model e) = false) →
      (e.cache_exists = false ∨ cached_model e = "" ∨ e.probe (cached_model e) = false) →
      ∀ m, models_to_try.find? e.probe = some m →
        find_working_model e = some (m, some m)) ∧
    ((override_model e = "" ∨ e.probe (override_model e) = false) →
      (e.cache_exists = false ∨ cached_model e = "" ∨ e.probe (cached_model e) = false) →
      (∀ m ∈ models_to_try, e.probe m = false) →
      find_working_model e = none) := by
  have hc1 : (override_model e = "" ∨ e.probe (override_model e) = false) →
      ¬((override_model e ≠ "" && e.probe (override_model e)) = true) := by
    rintro (h | h)
    · simp [h]
    · simp [h]
  have hc2 : (e.cache_exists = false ∨ cached_model e = "" ∨
        e.probe (cached_model e) = false) →
      ¬((e.cache_exists && cached_model e ≠ "" && e.probe (cached_model e)) = true) := by
    rintro (h | h | h)
    · simp [h]
    · simp [h]
    · simp [h]
  refine ⟨fun h1 h2 => ?_, fun hov hce hca hpa => ?_, fun hov hca m hm => ?_,
    fun hov hca hall => ?_⟩
  · have hcond : (override_model e ≠ "" && e.probe (override_model e)) = true := by
      simp [h1, h2]
    simp only [find_working_model]
    rw [if_pos hcond]
  · have hcond : (e.cache_exists && cached_model e ≠ "" && e.probe (cached_model e))
        = true := by
      simp [hce, hca, hpa]
    simp only [find_working_model]
    rw [if_neg (hc1 hov), if_pos hcond]
  · simp only [find_working_model]
    rw [if_neg (hc1 hov), if_neg (hc2 hca), hm]
  · have hnone : models_to_try.find? e.probe = none := by
      rw [List.find?_eq_none]
      intro m hmem
      simp [hall m hmem]
    simp only [find_working_model]
    rw [if_neg (hc1 hov), if_neg (hc2 hca), hnone]

/-- A probe accepting only the middle fallback model. -/
def wModelEnv : ModelEnv :=
  { llm_model_env := none, cache_exists := false, cache_content := "",
    probe := fun m => m == "llama3-8b-8192" }

/-- C2 witness: with no override and no cache and only the second
fallback model callable, the selector returns it and persists it. -/
theorem C2_witness :
    find_working_model wModelEnv = some ("llama3-8b-8192", some "llama3-8b-8192") :=
  (C2_model_selection_order wModelEnv).2.2.1 (Or.inl (by decide)) (Or.inl (by decide))
    "llama3-8b-8192" (by decide)

/-- C7 counterexample: with the empty knowledge base, the query
`"scheme"` has detected query type `scheme`, and `_get_relevant_context`
returns the scheme-section header — a non-empty string — because the
header is appended before the (empty) scheme loop runs. This refutes the
claim that an empty KB always yields an empty context. -/
theorem C7_counterexample :
    detect_query_type "scheme" = "scheme" ∧
    get_relevant_context emptyCropData "scheme" ≠ "" := by decide

/-- C7 (amended): with the empty knowledge base the context builder
returns the empty string for every query whose detected type is not
`scheme`; for scheme-type queries it returns exactly the bare
scheme-section header instead of the empty string. -/
theorem C7_empty_kb_context (query : String) :
    (detect_query_type query ≠ "scheme" →
      get_relevant_context emptyCropData query = "") ∧
    (detect_query_type query = "scheme" →
      get_relevant_context emptyCropData query = schemeHeader) := by
  have hcrop : detect_crop emptyCropData query = none := rfl
  constructor
  · intro hq
    simp [get_relevant_context, hcrop, hq]
  · intro hq
    simp only [get_relevant_context, hcrop, hq]
    rfl

/-- C7 witness: a non-scheme query gives the empty context, a scheme
query gives exactly the header. -/
theorem C7_witness :
    get_relevant_context emptyCropData "hello" = "" ∧
    get_relevant_context emptyCropData "scheme" = schemeHeader :=
  ⟨(C7_empty_kb_context "hello").1 (by decide),
   (C7_empty_kb_context "scheme").2 (by decide)⟩

/-- C8: for every query, `_detect_query_type` returns exactly one of the
five categories, decided by the fixed priority order disease/pest, then
fertilizer, then scheme, then irrigation, with `general` as the default:
the first group with a keyword occurring as a substring of the
lowercased query wins, so a query matching several groups is classified
as the highest-priority matching one and no combination is returned. -/
theorem C8_query_type_priority (query : String) :
    (detect_query_type query = "disease" ∨ detect_query_type query = "fertilizer" ∨
     detect_query_type query = "scheme" ∨ detect_query_type query = "irrigation" ∨
     detect_query_type query = "general") ∧
    (groupMatches disease_keywords query → detect_query_type query = "disease") ∧
    (¬groupMatches disease_keywords query → groupMatches fertilizer_keywords query →
      detect_query_type query = "fertilizer") ∧
    (¬groupMatches disease_keywords query → ¬groupMatches fertilizer_keywords query →
      groupMatches scheme_keywords query → detect_query_type query = "scheme") ∧
    (¬groupMatches disease_keywords query → ¬groupMatches fertilizer_keywords query →
      ¬groupMatches scheme_keywords query → groupMatches irrigation_keywords query →
      detect_query_type query = "irrigation") ∧
    (¬groupMatches disease_keywords query → ¬groupMatches fertilizer_keywords query →
      ¬groupMatches scheme_keywords query → ¬groupMatches irrigation_keywords query →
      detect_query_type query = "general") := by
  cases hd : matchesGroup disease_keywords query <;>
    cases hf : matchesGroup fertilizer_keywords query <;>
      cases hs : matchesGroup scheme_keywords query <;>
        cases hi : matchesGroup irrigation_keywords query <;>
          simp [detect_query_type, hd, hf, hs, hi, ← matchesGroup_iff]

/-- C8 witness: `"government loan"` matches no disease or fertilizer
keyword but matches a scheme keyword, so it is classified `scheme`. -/
theorem C8_witness : detect_query_type "government loan" = "scheme" :=
  (C8_query_type_priority "government loan").2.2.2.1 (by decide) (by decide) (by decide)

/-- C9: whenever no crop keyword matches the query and the detected
query type is not `scheme`, `_get_relevant_context` returns the empty
string, and `get_response` then skips prompt augmentation: the enhanced
prompt is the system prompt plus (at most) the stage note, with no
knowledge-base context block and no instruction suffix. -/
theorem C9_no_crop_non_scheme (env : Env) (today : Date) (meta : Option Meta)
    (query : String) (hcrop : detect_crop env.crop_data query = none)
    (hq : detect_query_type query ≠ "scheme") :
    get_relevant_context env.crop_data query = "" ∧
    enhanced_prompt env today meta query
      = env.system_prompt ++ stage_text env.crop_data today meta query := by
  have hctx : get_relevant_context env.crop_data query = "" := by
    simp [get_relevant_context, hcrop, hq]
  refine ⟨hctx, ?_⟩
  simp only [enhanced_prompt, hctx]
  by_cases hst : stage_text env.crop_data today meta query = ""
  · simp [hst]
  · simp [hst]

/-- C9 witness: the query `"hello"` matches no crop of a one-crop KB and
is not scheme-typed; the context is empty and the prompt is just the
system prompt. -/
theorem C9_witness :
    get_relevant_context wEnv.crop_data "hello" = "" ∧
    enhanced_prompt wEnv wToday none "hello"
      = wEnv.system_prompt ++ stage_text wEnv.crop_data wToday none "hello" :=
  C9_no_crop_non_scheme wEnv wToday none "hello" (by decide) (by decide)

/-- C6 counterexample: cotton's last rule-table entry is
`(131, 999, "कापणी जवळ")` — bounded above by 999, not open-ended — and a
days-after-sowing value of 1000 (beyond every earlier bucket) maps to
the generic approximate-stage label, not to the last entry's
near-harvest label. -/
theorem C6_counterexample :
    ((stageRulesFor "cotton").getD []).getLast? = some (131, 999, "कापणी जवळ") ∧
    findStageLabel ((stageRulesFor "cotton").getD []) 1000 = genericStageLabel ∧
    genericStageLabel ≠ "कापणी जवळ" := by decide

/-- C6 (amended): for every supported crop, the last rule-table entry is
bounded above by 999 days; every days-after-sowing value from that
entry's lower bound up to 999 maps to its near-harvest label, while
every value above 999 falls outside all buckets and maps to the generic
approximate-stage label. -/
theorem C6_last_bucket_capped (k : String) (rules : List (Nat × Nat × String))
    (h : stageRulesFor k = some rules) :
    ∃ last, rules.getLast? = some last ∧ last.2.1 = 999 ∧
      (∀ das : Int, (last.1 : Int) ≤ das → das ≤ 999 →
        findStageLabel rules das = last.2.2) ∧
      (∀ das : Int, 999 < das → findStageLabel rules das = genericStageLabel) := by
  unfold stageRulesFor at h
  cases hf : STAGE_RULES.find? (fun e => e.1 == k) with
  | none => rw [hf] at h; simp at h
  | some x =>
    rw [hf] at h
    have hx : x.2 = rules := by simpa using h
    subst hx
    have hmem := List.mem_of_find?_eq_some hf
    fin_cases hmem
    · refine ⟨(131, 999, "कापणी जवळ"), rfl, rfl, fun das h1 h2 => ?_, fun das h1 => ?_⟩
      · rw [findStageLabel_cons_neg _ _ _ (by simp; omega), findStageLabel_cons_neg _ _ _ (by simp; omega),
          findStageLabel_cons_neg _ _ _ (by simp; omega), findStageLabel_cons_neg _ _ _ (by simp; omega),
          findStageLabel_cons_pos _ _ _ (by simp; omega) (by simp; omega)]
      · rw [findStageLabel_cons_neg _ _ _ (by simp; omega), findStageLabel_cons_neg _ _ _ (by simp; omega),
          findStageLabel_cons_neg _ _ _ (by simp; omega), findStageLabel_cons_neg _ _ _ (by simp; omega),
          findStageLabel_cons_neg _ _ _ (by simp; omega), findStageLabel_nil]
    · refine ⟨(111, 999, "कापणी जवळ"), rfl, rfl, fun das h1 h2 => ?_, fun das h1 => ?_⟩
      · rw [findStageLabel_cons_neg _ _ _ (by simp; omega), findStageLabel_cons_neg _ _ _ (by simp; omega),
          findStageLabel_cons_neg _ _ _ (by simp; omega), findStageLabel_cons_neg _ _ _ (by simp; omega),
          findStageLabel_cons_pos _ _ _ (by simp; omega) (by simp; omega)]
      · rw [findStageLabel_cons_neg _ _ _ (by simp; omega), findStageLabel_cons_neg _ _ _ (by simp; omega),
          findStageLabel_cons_neg _ _ _ (by simp; omega), findStageLabel_cons_neg _ _ _ (by simp; omega),
          findStageLabel_cons_neg _ _ _ (by simp; omega), findStageLabel_nil]
    · refine ⟨(81, 999, "कापणी जवळ"), rfl, rfl, fun das h1 h2 => ?_, fun das h1 => ?_⟩
      · rw [findStageLabel_cons_neg _ _ _ (by simp; omega), findStageLabel_cons_neg _ _ _ (by simp; omega),
          findStageLabel_cons_neg _ _ _ (by simp; omega),
          findStageLabel_cons_pos _ _ _ (by simp; omega) (by simp; omega)]
      · rw [findStageLabel_cons_neg _ _ _ (by simp; omega), findStageLabel_cons_neg _ _ _ (by simp; omega),
          findStageLabel_cons_neg _ _ _ (by simp; omega), findStageLabel_cons_neg _ _ _ (by simp; omega),
          findStageLabel_nil]
    · refine ⟨(66, 999, "शेंगा भरणे / कापणी जवळ"), rfl, rfl, fun das h1 h2 => ?_,
        fun das h1 => ?_⟩
      · rw [findStageLabel_cons_neg _ _ _ (by simp; omega), findStageLabel_cons_neg _ _ _ (by simp; omega),
          findStageLabel_cons_neg _ _ _ (by simp; omega),
          findStageLabel_cons_pos _ _ _ (by simp; omega) (by simp; omega)]
      · rw [findStageLabel_cons_neg _ _ _ (by simp; omega), findStageLabel_cons_neg _ _ _ (by simp; omega),
          findStageLabel_cons_neg _ _ _ (by simp; omega), findStageLabel_cons_neg _ _ _ (by simp; omega),
          findStageLabel_nil]

/-- C6 witness: instantiated for tomato, exposing the concrete capped
last bucket. -/
theorem C6_witness :
    ∃ last,
      ([ ((0 : Nat), (20 : Nat), "रोपांची वाढ / रोपवाटिका"),
         (21, 40, "रोपांची वाढ / फुटवे"),
         (41, 70, "फुलोरा"),
         (71, 110, "फळ विकास"),
         (111, 999, "कापणी जवळ") ] : List (Nat × Nat × String)).getLast? = some last ∧
      last.2.1 = 999 ∧
      (∀ das : Int, (last.1 : Int) ≤ das → das ≤ 999 →
        findStageLabel [ (0, 20, "रोपांची वाढ / रोपवाटिका"),
          (21, 40, "रोपांची वाढ / फुटवे"), (41, 70, "फुलोरा"),
          (71, 110, "फळ विकास"), (111, 999, "कापणी जवळ") ] das = last.2.2) ∧
      (∀ das : Int, 999 < das →
        findStageLabel [ (0, 20, "रोपांची वाढ / रोपवाटिका"),
          (21, 40, "रोपांची वाढ / फुटवे"), (41, 70, "फुलोरा"),
          (71, 110, "फळ विकास"), (111, 999, "कापणी जवळ") ] das = genericStageLabel) :=
  C6_last_bucket_capped "tomato" _ (by decide)

/-- C5 counterexample: for cotton sown 1000 days before the reference
day, the estimator does return the exact whole-day difference, but the
returned label is the generic approximate-stage label and no rule-table
bucket of cotton contains 1000, so "the label of the rule-table bucket
containing that value" does not describe the result. -/
theorem C5_counterexample :
    get_stage_info ⟨2026, 10, 12⟩ "cotton" "2024-01-16"
      = some ⟨"cotton", 1000, genericStageLabel⟩ ∧
    (∀ r ∈ (stageRulesFor "cotton").getD [],
      ¬((r.1 : Int) ≤ 1000 ∧ (1000 : Int) ≤ (r.2.1 : Int))) ∧
    (stageRulesFor "cotton").getD [] ≠ [] := by decide

/-- C5 (amended): `_get_stage_info` returns `none` exactly when the
sowing date parses under none of the accepted formats, or the
(lowercased) crop key has no rule table, or the computed
days-after-sowing is negative; otherwise it returns `daysAfterSowing`
equal to the exact whole-day difference between today and the sowing
date together with the label chosen by the bucket scan — the first
bucket containing that value when one does, and the generic
approximate-stage label when the value lies beyond every bucket. -/
theorem C5_stage_estimator (today : Date) (crop_key sowing_date_str : String) :
    (get_stage_info today crop_key sowing_date_str = none ↔
      parse_date_str sowing_date_str = none ∨
      stageRulesFor (strLower crop_key) = none ∨
      ∃ d, parse_date_str sowing_date_str = some d ∧
        (toOrdinal today : Int) - (toOrdinal d : Int) < 0) ∧
    (∀ d rules, parse_date_str sowing_date_str = some d →
      stageRulesFor (strLower crop_key) = some rules →
      0 ≤ (toOrdinal today : Int) - (toOrdinal d : Int) →
      get_stage_info today crop_key sowing_date_str
        = some ⟨strLower crop_key, (toOrdinal today : Int) - (toOrdinal d : Int),
            findStageLabel rules ((toOrdinal today : Int) - (toOrdinal d : Int))⟩) := by
  have hempty_rules : crop_key = "" → stageRulesFor (strLower crop_key) = none := by
    intro h; subst h; decide
  have hempty_parse : sowing_date_str = "" → parse_date_str sowing_date_str = none := by
    intro h; subst h; rfl
  constructor
  · constructor
    · intro h
      unfold get_stage_info at h
      split at h
      · rename_i hcond
        rw [Bool.or_eq_true, decide_eq_true_eq, decide_eq_true_eq] at hcond
        rcases hcond with hc | hc
        · exact Or.inr (Or.inl (hempty_rules hc))
        · exact Or.inl (hempty_parse hc)
      · split at h
        · rename_i heq
          exact Or.inr (Or.inl heq)
        · rename_i rules heq
          split at h
          · rename_i hemp
            rw [stageRulesFor_not_empty heq] at hemp
            exact absurd hemp (by simp)
          · split at h
            · rename_i hparse
              exact Or.inl hparse
            · rename_i sow hparse
              split at h
              · rename_i hneg
                exact Or.inr (Or.inr ⟨sow, hparse, hneg⟩)
              · exact Option.noConfusion h
    · intro h
      unfold get_stage_info
      split
      · rfl
      · rcases h with hp | hr | ⟨d, hp, hlt⟩
        · split
          · rfl
          · rename_i rules heq
            split
            · rfl
            · rw [hp]
        · split
          · rfl
          · rename_i rules heq
            rw [hr] at heq
            exact Option.noConfusion heq
        · split
          · rfl
          · rename_i rules heq
            split
            · rfl
            · rw [hp]
              dsimp only
              rw [if_pos hlt]
  · intro d rules hp hrl hge
    unfold get_stage_info
    split
    · rename_i hcond
      rw [Bool.or_eq_true, decide_eq_true_eq, decide_eq_true_eq] at hcond
      rcases hcond with hc | hc
      · rw [hempty_rules hc] at hrl
        exact Option.noConfusion hrl
      · rw [hempty_parse hc] at hp
        exact Option.noConfusion hp
    · split
      · rename_i heq
        rw [heq] at hrl
        exact Option.noConfusion hrl
      · rename_i rules2 heq
        rw [heq] at hrl
        injection hrl with he
        subst he
        rw [if_neg (by simp [stageRulesFor_not_empty heq])]
        rw [hp]
        dsimp only
        rw [if_neg (not_lt.mpr hge)]

/-- C5 witness: cotton sown 2025-10-01 evaluated 45 days later yields
exactly 45 days after sowing with the bucket label for 21-45 days. -/
theorem C5_witness :
    get_stage_info ⟨2025, 11, 15⟩ "cotton" "01-10-2025"
      = some ⟨strLower "cotton",
          (toOrdinal ⟨2025, 11, 15⟩ : Int) - (toOrdinal ⟨2025, 10, 1⟩ : Int),
          findStageLabel
            [ (0, 20, "अंकुरण / उगवण"), (21, 45, "वाढीची अवस्था"),
              (46, 80, "फुलोरा / चौकट"), (81, 130, "बॉल विकास"),
              (131, 999, "कापणी जवळ") ]
            ((toOrdinal ⟨2025, 11, 15⟩ : Int) - (toOrdinal ⟨2025, 10, 1⟩ : Int))⟩ :=
  (C5_stage_estimator ⟨2025, 11, 15⟩ "cotton" "01-10-2025").2 ⟨2025, 10, 1⟩ _
    (by decide) (by decide) (by decide)

end KrishiGPT
